import Mathlib

/-!
# cluster-api-provider-tinkerbell: the manager entry point (`main.go`)

A shallow embedding of `main.go`: option parsing and validation, the wiring of
the three Tinkerbell event watchers and their reconcilers, the health checks and
the start-up sequence of `main`.

Calls into libraries (controller-runtime, the tink client, klog) are external:
every call site that can return an error takes its result from an `Outcomes`
record, and every call is recorded, with its arguments and its result, in the
trace of the process state. `os.Exit` ends the run: no later statement executes.
-/

namespace CAPT

/-! ## Go values -/

/-- Go `error` values: `errors.New(msg)` and `fmt.Errorf(msg + ": %w", err)`. -/
inductive GoError where
  | errorsNew (msg : String)
  | errorf (msg : String) (wrapped : GoError)
  deriving DecidableEq, Repr

/-- The `Error()` method: the message, followed by the wrapped error's text. -/
def GoError.Error : GoError → String
  | .errorsNew msg => msg
  | .errorf msg wrapped => msg ++ ": " ++ wrapped.Error

/-- The `errors.Unwrap` function: the error wrapped by `%w`, if any. -/
def GoError.Unwrap : GoError → Option GoError
  | .errorsNew _ => none
  | .errorf _ wrapped => some wrapped

/-- A Go channel: its identity and its buffer capacity (`cap(ch)`). -/
structure Chan where
  id : Nat
  cap : Nat
  deriving DecidableEq, Repr

/-- The constants of `tinkevents.ResourceType` that `main.go` uses. -/
inductive ResourceType where
  | RESOURCE_TYPE_HARDWARE
  | RESOURCE_TYPE_TEMPLATE
  | RESOURCE_TYPE_WORKFLOW
  deriving DecidableEq, Repr

/-- A logger is identified by the chain of names given with `WithName`. -/
abbrev Logger := List String

/-- The struct `sources.TinkEventWatcher`, with the fields `main.go` sets. -/
structure TinkEventWatcher where
  EventCh : Chan
  Logger : Logger
  ResourceType : ResourceType
  deriving DecidableEq, Repr

/-- The backend clients built at the top of `setupTinkShimControllers`. -/
inductive TinkClient where
  | NewHardwareClient
  | NewTemplateClient
  | NewWorkflowClient (hwClient : TinkClient)
  deriving DecidableEq, Repr

/-- The five reconciler types that `main.go` sets up. -/
inductive ReconcilerKind where
  | tinkhardware
  | tinktemplate
  | tinkworkflow
  | TinkerbellCluster
  | TinkerbellMachine
  deriving DecidableEq, Repr

/-- A reconciler value: its type, its backend client (the shim reconcilers
have one) and its logger. -/
structure Reconciler where
  kind : ReconcilerKind
  client : Option TinkClient
  Log : Logger
  deriving DecidableEq, Repr

/-- A controller registered by `SetupWithManager`: the reconciler and the event
channel it was given (the cluster and machine reconcilers take none). -/
structure Controller where
  reconciler : Reconciler
  events : Option Chan
  deriving DecidableEq, Repr

/-- The state of the controller manager that `main.go` can change. -/
structure Manager where
  runnables : List TinkEventWatcher := []
  controllers : List Controller := []
  readyzChecks : List String := []
  healthzChecks : List String := []
  deriving DecidableEq, Repr

/-- The fields of `ctrl.Options` that `main.go` sets. `Scheme` lists the API
groups added in `init`, `EventBroadcaster` is the burst size of the
correlator, `SyncPeriod` is in nanoseconds, `Port` is a Go `int`. -/
structure Options where
  Scheme : List String
  LeaderElectionID : String
  EventBroadcaster : Nat
  SyncPeriod : Int
  LeaderElection : Bool
  LeaderElectionNamespace : String
  HealthProbeBindAddress : String
  MetricsBindAddress : String
  Namespace : String
  Port : Int
  deriving DecidableEq, Repr

/-! ## The process: trace, exit, external calls -/

/-- A line written through a logger. -/
inductive LogEntry where
  | Info (logger : Logger) (msg : String) (keysAndValues : List String)
  | Error (logger : Logger) (err : GoError) (msg : String) (keysAndValues : List String)
  deriving DecidableEq, Repr

/-- The external calls of `main.go`, with their arguments. `Start` carries the
state of its receiver, the manager, at the time of the call. -/
inductive Call where
  | SetLogger
  | GetConfigOrDie
  | NewManager (options : Options)
  | tinkclientSetup
  | SetupSignalHandler
  | Add (runnable : TinkEventWatcher)
  | SetupWithManager (r : Reconciler) (events : Option Chan)
  | AddReadyzCheck (name : String)
  | AddHealthzCheck (name : String)
  | Start (mgr : Manager)
  deriving DecidableEq, Repr

/-- What the process does, in order: log lines, the channels it makes, external
calls with the error they returned (`none` is Go's `nil`), and `os.Exit`. -/
inductive Event where
  | log (entry : LogEntry)
  | make (ch : Chan)
  | call (c : Call) (err : Option GoError)
  | exit (code : Nat)
  deriving DecidableEq, Repr

/-- The process state: what happened so far, the manager, and the number of
channels made so far (each `make` returns a channel distinct from all others). -/
structure Proc where
  trace : List Event := []
  mgr : Manager := {}
  chans : Nat := 0
  deriving DecidableEq, Repr

instance : Inhabited Proc := ⟨{}⟩

/-- The result of running a piece of the program: it returned a value, or the
process ended in `os.Exit`. -/
inductive Res (α : Type) where
  | ok (a : α) (p : Proc)
  | exited (code : Nat) (p : Proc)

/-- A piece of the program, as a function of the process state. -/
def Run (α : Type) : Type := Proc → Res α

/-- Sequencing: after `os.Exit` nothing runs. -/
def Run.bind {α β : Type} (x : Run α) (f : α → Run β) : Run β := fun p =>
  match x p with
  | .ok a q => f a q
  | .exited code q => .exited code q

instance : Monad Run where
  pure a := fun p => .ok a p
  bind := Run.bind

/-- The process state in which a run ended. -/
def Res.proc {α : Type} : Res α → Proc
  | .ok _ p => p
  | .exited _ p => p

/-- The exit status of the process: the argument of `os.Exit`, or 0 when
`main` returns. -/
def Res.exitStatus {α : Type} : Res α → Nat
  | .ok _ _ => 0
  | .exited code _ => code

/-- The value a run returned, if it returned. -/
def Res.value {α : Type} : Res α → Option α
  | .ok a _ => some a
  | .exited _ _ => none

/-- Appends an event to the trace. -/
def emit (e : Event) : Run Unit := fun p =>
  .ok () { p with trace := p.trace ++ [e] }

/-- The call `os.Exit(code)`. -/
def osExit {α : Type} (code : Nat) : Run α := fun p =>
  .exited code { p with trace := p.trace ++ [Event.exit code] }

/-- An external call that returns the error `err`. -/
def extCall (c : Call) (err : Option GoError) : Run (Option GoError) := do
  emit (Event.call c err)
  pure err

/-- The statement `make(chan event.GenericEvent)`: a new channel, distinct from
every channel made before; with no size argument its capacity is 0. -/
def makeChan : Run Chan := fun p =>
  .ok { id := p.chans, cap := 0 }
    { p with
      trace := p.trace ++ [Event.make { id := p.chans, cap := 0 }]
      chans := p.chans + 1 }

/-- The call `mgr.Add(runnable)`: on success the runnable belongs to the manager. -/
def mgrAdd (err : Option GoError) (runnable : TinkEventWatcher) : Run (Option GoError) := fun p =>
  let q := { p with trace := p.trace ++ [Event.call (Call.Add runnable) err] }
  match err with
  | none => .ok none { q with mgr := { q.mgr with runnables := q.mgr.runnables ++ [runnable] } }
  | some e => .ok (some e) q

/-- The call `r.SetupWithManager(mgr, events)`: on success the controller is
registered with the manager. -/
def SetupWithManager (err : Option GoError) (r : Reconciler) (events : Option Chan) :
    Run (Option GoError) := fun p =>
  let q := { p with trace := p.trace ++ [Event.call (Call.SetupWithManager r events) err] }
  match err with
  | none => .ok none
      { q with mgr := { q.mgr with controllers := q.mgr.controllers ++ [⟨r, events⟩] } }
  | some e => .ok (some e) q

/-- The call `mgr.AddReadyzCheck(name, healthz.Ping)`. -/
def AddReadyzCheck (err : Option GoError) (name : String) : Run (Option GoError) := fun p =>
  let q := { p with trace := p.trace ++ [Event.call (Call.AddReadyzCheck name) err] }
  match err with
  | none => .ok none { q with mgr := { q.mgr with readyzChecks := q.mgr.readyzChecks ++ [name] } }
  | some e => .ok (some e) q

/-- The call `mgr.AddHealthzCheck(name, healthz.Ping)`. -/
def AddHealthzCheck (err : Option GoError) (name : String) : Run (Option GoError) := fun p =>
  let q := { p with trace := p.trace ++ [Event.call (Call.AddHealthzCheck name) err] }
  match err with
  | none => .ok none { q with mgr := { q.mgr with healthzChecks := q.mgr.healthzChecks ++ [name] } }
  | some e => .ok (some e) q

/-- The call `mgr.Start(stopCh)`: the run loop, entered with the manager as it
is at that moment; it returns when the loop ends. -/
def mgrStart (err : Option GoError) : Run (Option GoError) := fun p =>
  .ok err { p with trace := p.trace ++ [Event.call (Call.Start p.mgr) err] }

/-- The package variable `setupLog = ctrl.Log.WithName("setup")`. -/
def setupLog : Logger := ["setup"]

/-- The package variable `scheme`, after `init` added the four API groups. -/
def scheme : List String :=
  ["clientgoscheme", "infrastructurev1alpha3", "clusterv1", "tinkv1"]

/-- The call `setupLog.Info(msg, keysAndValues...)`. -/
def setupLogInfo (msg : String) (keysAndValues : List String) : Run Unit :=
  emit (Event.log (LogEntry.Info setupLog msg keysAndValues))

/-- The call `setupLog.Error(err, msg, keysAndValues...)`. -/
def setupLogError (err : GoError) (msg : String) (keysAndValues : List String) : Run Unit :=
  emit (Event.log (LogEntry.Error setupLog err msg keysAndValues))

/-! ## The program -/

/-- A command-line flag, parsed: the flag and its value. Turning the text of the
command line into these is the work of the `flag` package, which is external: a
command line it rejects ends the process inside `flag.Parse`, and the flags that
`klog.InitFlags` registers set no field of the options. -/
inductive FlagArg where
  | enable_leader_election (v : Bool)
  | leader_election_namespace (v : String)
  | health_addr (v : String)
  | metrics_addr (v : String)
  | sync_period (v : Int)
  | watch_namespace (v : String)
  | webhook_port (v : Int)
  deriving DecidableEq, Repr

/-- The constant `time.Minute`, in nanoseconds. -/
def Minute : Int := 60 * 1000000000

/-- The options as `optionsFromFlags` has them before `flag.Parse`: the struct
literal, and the default of every flag variable. -/
def defaultOptions : Options :=
  { Scheme := scheme
    LeaderElectionID := "controller-leader-election-capt"
    EventBroadcaster := 100
    SyncPeriod := 10 * Minute
    LeaderElection := false
    LeaderElectionNamespace := ""
    HealthProbeBindAddress := ":9440"
    MetricsBindAddress := ":8080"
    Namespace := ""
    Port := 0 }

/-- The effect of one flag of the command line: it sets the variable it was
registered with. -/
def setFlag (options : Options) : FlagArg → Options
  | .enable_leader_election v => { options with LeaderElection := v }
  | .leader_election_namespace v => { options with LeaderElectionNamespace := v }
  | .health_addr v => { options with HealthProbeBindAddress := v }
  | .metrics_addr v => { options with MetricsBindAddress := v }
  | .sync_period v => { options with SyncPeriod := v }
  | .watch_namespace v => { options with Namespace := v }
  | .webhook_port v => { options with Port := v }

/-- The function `optionsFromFlags`: the defaults, then the flags of the command
line from left to right. -/
def optionsFromFlags (args : List FlagArg) : Options :=
  args.foldl setFlag defaultOptions

/-- The function `validateOptions`. -/
def validateOptions (options : Options) : Run (Option GoError) := do
  if options.Namespace ≠ "" then
    setupLogInfo "Watching cluster-api objects only in namespace for reconciliation"
      ["namespace", options.Namespace]
  if options.Port ≠ 0 then
    return some (GoError.errorsNew "webhook not implemented")
  return none

/-- The errors returned at the call sites of `main.go`, one field for each call
site (`none` is `nil`). For `GetConfigOrDie`, an error means that it dies. -/
structure Outcomes where
  GetConfigOrDie : Option GoError
  NewManager : Option GoError
  tinkclientSetup : Option GoError
  AddHardwareWatcher : Option GoError
  SetupHardware : Option GoError
  AddTemplateWatcher : Option GoError
  SetupTemplate : Option GoError
  AddWorkflowWatcher : Option GoError
  SetupWorkflow : Option GoError
  SetupTinkerbellCluster : Option GoError
  SetupTinkerbellMachine : Option GoError
  AddReadyzCheck : Option GoError
  AddHealthzCheck : Option GoError
  Start : Option GoError
  deriving DecidableEq, Repr

/-- The function `addHealthChecks`. -/
def addHealthChecks (o : Outcomes) : Run (Option GoError) := do
  if let some err ← AddReadyzCheck o.AddReadyzCheck "ping" then
    return some (GoError.errorf "unable to create ready check" err)
  if let some err ← AddHealthzCheck o.AddHealthzCheck "ping" then
    return some (GoError.errorf "unable to create healthz check" err)
  return none

/-- The function `setupTinkShimControllers`. -/
def setupTinkShimControllers (o : Outcomes) : Run (Option GoError) := do
  let hwClient := TinkClient.NewHardwareClient
  let templateClient := TinkClient.NewTemplateClient
  let workflowClient := TinkClient.NewWorkflowClient hwClient
  let hwChan ← makeChan
  let templateChan ← makeChan
  let workflowChan ← makeChan
  if let some err ← mgrAdd o.AddHardwareWatcher
      { EventCh := hwChan
        Logger := ["tinkwatcher", "Hardware"]
        ResourceType := ResourceType.RESOURCE_TYPE_HARDWARE } then
    return some (GoError.errorf "unable to create tink hardware watcher" err)
  if let some err ← SetupWithManager o.SetupHardware
      { kind := ReconcilerKind.tinkhardware
        client := some hwClient
        Log := ["controllers", "Hardware"] } (some hwChan) then
    return some (GoError.errorf "unable to create tink hardware controller" err)
  if let some err ← mgrAdd o.AddTemplateWatcher
      { EventCh := templateChan
        Logger := ["tinkwatcher", "Template"]
        ResourceType := ResourceType.RESOURCE_TYPE_TEMPLATE } then
    return some (GoError.errorf "unable to create tink template watcher" err)
  if let some err ← SetupWithManager o.SetupTemplate
      { kind := ReconcilerKind.tinktemplate
        client := some templateClient
        Log := ["controllers", "Template"] } (some templateChan) then
    return some (GoError.errorf "unable to create tink template controller" err)
  if let some err ← mgrAdd o.AddWorkflowWatcher
      { EventCh := workflowChan
        Logger := ["tinkwatcher", "Workflow"]
        ResourceType := ResourceType.RESOURCE_TYPE_WORKFLOW } then
    return some (GoError.errorf "unable to create tink workflow watcher" err)
  if let some err ← SetupWithManager o.SetupWorkflow
      { kind := ReconcilerKind.tinkworkflow
        client := some workflowClient
        Log := ["controllers", "Workflow"] } (some workflowChan) then
    return some (GoError.errorf "unable to create tink workflow controller" err)
  return none

/-- The function `main`, run with the command line `args` and the outcomes `o`
of the external calls. `ctrl.GetConfigOrDie()` is evaluated before the call of
`ctrl.NewManager` that takes its value; when it fails it ends the process itself,
with status 1. The getters `mgr.GetClient()` and `mgr.GetScheme()` have no effect
and cannot fail. -/
def main (args : List FlagArg) (o : Outcomes) : Run Unit := do
  let _ ← extCall Call.SetLogger none
  let options := optionsFromFlags args
  if let some err ← validateOptions options then
    setupLogError err "validating controllers configuration" []
    osExit 1
  if let some _ ← extCall Call.GetConfigOrDie o.GetConfigOrDie then
    osExit 1
  if let some err ← extCall (Call.NewManager options) o.NewManager then
    setupLogError err "unable to start manager" []
    osExit 1
  if let some err ← extCall Call.tinkclientSetup o.tinkclientSetup then
    setupLogError err "unable to create tinkerbell client" []
    osExit 1
  let _ ← extCall Call.SetupSignalHandler none
  if let some err ← setupTinkShimControllers o then
    setupLogError err "failed to add Tinkerbell Shim Controllers" []
    osExit 1
  if let some err ← SetupWithManager o.SetupTinkerbellCluster
      { kind := ReconcilerKind.TinkerbellCluster
        client := none
        Log := ["controllers", "TinkerbellCluster"] } none then
    setupLogError err "unable to create controller" ["controller", "TinkerbellCluster"]
    osExit 1
  if let some err ← SetupWithManager o.SetupTinkerbellMachine
      { kind := ReconcilerKind.TinkerbellMachine
        client := none
        Log := ["controllers", "TinkerbellMachine"] } none then
    setupLogError err "unable to create controller" ["controller", "TinkerbellMachine"]
    osExit 1
  if let some err ← addHealthChecks o then
    setupLogError err "failed to add health checks" []
    osExit 1
  setupLogInfo "starting manager" []
  if let some err ← mgrStart o.Start then
    setupLogError err "problem running manager" []
    osExit 1

/-- The run of the whole process: `main` from the initial process state. -/
def runMain (args : List FlagArg) (o : Outcomes) : Res Unit :=
  main args o {}

/-- The outcomes in which every external call succeeds. -/
def allSucceed : Outcomes :=
  ⟨none, none, none, none, none, none, none, none, none, none, none, none, none, none⟩

/-- The outcomes in which every call succeeds until `mgr.Start`, which returns
an error. -/
def startFails : Outcomes :=
  { allSucceed with Start := some (GoError.errorsNew "leader election lost") }

/-- The outcomes in which `ctrl.NewManager` returns an error, and every other
call would succeed. -/
def newManagerFails : Outcomes :=
  { allSucceed with NewManager := some (GoError.errorsNew "no kubeconfig") }

/-! ## Observations on runs -/

/-- The events a run added to the trace of the state `p` it started from. -/
def Res.eventsSince {α : Type} (r : Res α) (p : Proc) : List Event :=
  r.proc.trace.drop p.trace.length

/-- Whether an event is an external call. -/
def Event.isCall : Event → Bool
  | .call _ _ => true
  | _ => false

/-- Whether an event is an external call that returned an error. -/
def Event.isFailedCall : Event → Bool
  | .call _ (some _) => true
  | _ => false

/-- What a registration with the manager registers: the stream watcher of a
resource type, or the reconciler of a kind. -/
inductive Registration where
  | watcher (t : ResourceType)
  | reconciler (k : ReconcilerKind)
  deriving DecidableEq, Repr

/-- The registration an event attempts, with the error it returned. -/
def Event.registration : Event → Option (Registration × Option GoError)
  | .call (.Add runnable) err => some (.watcher runnable.ResourceType, err)
  | .call (.SetupWithManager r _) err => some (.reconciler r.kind, err)
  | _ => none

/-- The registrations attempted in a list of events, in order. -/
def registrations (events : List Event) : List (Registration × Option GoError) :=
  events.filterMap Event.registration

/-- The channels made in a list of events, in order. -/
def madeChans (events : List Event) : List Chan :=
  events.filterMap fun e => match e with
    | .make ch => some ch
    | _ => none

/-- The stream watchers given to `mgr.Add` in a list of events, in order. -/
def watchersIn (events : List Event) : List TinkEventWatcher :=
  events.filterMap fun e => match e with
    | .call (.Add runnable) _ => some runnable
    | _ => none

/-- The reconcilers given to `SetupWithManager` in a list of events, each with
the event channel it was given, in order. -/
def setupsIn (events : List Event) : List (Reconciler × Option Chan) :=
  events.filterMap fun e => match e with
    | .call (.SetupWithManager r ch) _ => some (r, ch)
    | _ => none

/-- The events of a run of `setupTinkShimControllers` from the state `p`. -/
def shimEvents (o : Outcomes) (p : Proc) : List Event :=
  (setupTinkShimControllers o p).eventsSince p

/-- The resource type whose events a reconciler kind handles. -/
def ReconcilerKind.resourceType : ReconcilerKind → Option ResourceType
  | .tinkhardware => some .RESOURCE_TYPE_HARDWARE
  | .tinktemplate => some .RESOURCE_TYPE_TEMPLATE
  | .tinkworkflow => some .RESOURCE_TYPE_WORKFLOW
  | .TinkerbellCluster => none
  | .TinkerbellMachine => none

/-- Every startup step of `main` succeeds: `validateOptions`, `GetConfigOrDie`,
`ctrl.NewManager`, `tinkclient.Setup`, `setupTinkShimControllers`, the two
`SetupWithManager` calls and `addHealthChecks` return `nil`. -/
def startupSucceeds (args : List FlagArg) (o : Outcomes) : Prop :=
  (∀ p, (validateOptions (optionsFromFlags args) p).value = some none) ∧
  o.GetConfigOrDie = none ∧
  o.NewManager = none ∧
  o.tinkclientSetup = none ∧
  (∀ p, (setupTinkShimControllers o p).value = some none) ∧
  o.SetupTinkerbellCluster = none ∧
  o.SetupTinkerbellMachine = none ∧
  (∀ p, (addHealthChecks o p).value = some none)

/-- Whether the run loop was entered: `mgr.Start` was called. -/
def startEntered (trace : List Event) : Prop :=
  ∃ mgr err, Event.call (Call.Start mgr) err ∈ trace

/-! ## Running the pieces -/

@[simp] theorem Run.bind_apply {α β : Type} (x : Run α) (f : α → Run β) (p : Proc) :
    (x >>= f) p = match x p with
      | .ok a q => f a q
      | .exited code q => .exited code q := rfl

@[simp] theorem Run.pure_apply {α : Type} (a : α) (p : Proc) :
    (pure a : Run α) p = .ok a p := rfl

theorem validateOptions_run (options : Options) (p : Proc) :
    validateOptions options p =
      .ok (if options.Port ≠ 0 then some (GoError.errorsNew "webhook not implemented") else none)
        { p with trace := p.trace ++
            if options.Namespace ≠ "" then
              [Event.log (LogEntry.Info setupLog
                "Watching cluster-api objects only in namespace for reconciliation"
                ["namespace", options.Namespace])]
            else [] } := by
  unfold validateOptions
  by_cases hn : options.Namespace = "" <;> by_cases hp : options.Port = 0 <;>
    simp [hn, hp, setupLogInfo, emit]

theorem validateOptions_value (options : Options) (p : Proc) :
    (validateOptions options p).value =
      some (if options.Port ≠ 0 then some (GoError.errorsNew "webhook not implemented")
        else none) := by
  rw [validateOptions_run]; rfl

theorem setupTinkShimControllers_value_none_iff (o : Outcomes) (p : Proc) :
    (setupTinkShimControllers o p).value = some none ↔
      o.AddHardwareWatcher = none ∧ o.SetupHardware = none ∧ o.AddTemplateWatcher = none ∧
      o.SetupTemplate = none ∧ o.AddWorkflowWatcher = none ∧ o.SetupWorkflow = none := by
  obtain ⟨a1, a2, a3, a4, a5, a6, a7, a8, a9, a10, a11, a12, a13, a14⟩ := o
  rcases a4 with _ | e
  swap
  · simp [setupTinkShimControllers, ↓Run.bind_apply, makeChan, mgrAdd, SetupWithManager, Res.value]
  rcases a5 with _ | e
  swap
  · simp [setupTinkShimControllers, ↓Run.bind_apply, makeChan, mgrAdd, SetupWithManager, Res.value]
  rcases a6 with _ | e
  swap
  · simp [setupTinkShimControllers, ↓Run.bind_apply, makeChan, mgrAdd, SetupWithManager, Res.value]
  rcases a7 with _ | e
  swap
  · simp [setupTinkShimControllers, ↓Run.bind_apply, makeChan, mgrAdd, SetupWithManager, Res.value]
  rcases a8 with _ | e
  swap
  · simp [setupTinkShimControllers, ↓Run.bind_apply, makeChan, mgrAdd, SetupWithManager, Res.value]
  rcases a9 with _ | e
  swap
  · simp [setupTinkShimControllers, ↓Run.bind_apply, makeChan, mgrAdd, SetupWithManager, Res.value]
  simp [setupTinkShimControllers, ↓Run.bind_apply, makeChan, mgrAdd, SetupWithManager, Res.value]

theorem addHealthChecks_value_none_iff (o : Outcomes) (p : Proc) :
    (addHealthChecks o p).value = some none ↔
      o.AddReadyzCheck = none ∧ o.AddHealthzCheck = none := by
  obtain ⟨a1, a2, a3, a4, a5, a6, a7, a8, a9, a10, a11, a12, a13, a14⟩ := o
  rcases a12 with _ | e
  swap
  · simp [addHealthChecks, ↓Run.bind_apply, AddReadyzCheck, AddHealthzCheck, Res.value]
  rcases a13 with _ | e
  swap
  · simp [addHealthChecks, ↓Run.bind_apply, AddReadyzCheck, AddHealthzCheck, Res.value]
  simp [addHealthChecks, ↓Run.bind_apply, AddReadyzCheck, AddHealthzCheck, Res.value]

theorem startupSucceeds_iff (args : List FlagArg) (o : Outcomes) :
    startupSucceeds args o ↔
      (optionsFromFlags args).Port = 0 ∧ o.GetConfigOrDie = none ∧ o.NewManager = none ∧
      o.tinkclientSetup = none ∧ o.AddHardwareWatcher = none ∧ o.SetupHardware = none ∧
      o.AddTemplateWatcher = none ∧ o.SetupTemplate = none ∧ o.AddWorkflowWatcher = none ∧
      o.SetupWorkflow = none ∧ o.SetupTinkerbellCluster = none ∧
      o.SetupTinkerbellMachine = none ∧ o.AddReadyzCheck = none ∧ o.AddHealthzCheck = none := by
  unfold startupSucceeds
  simp only [validateOptions_value, setupTinkShimControllers_value_none_iff,
    addHealthChecks_value_none_iff, forall_const]
  by_cases hp : (optionsFromFlags args).Port = 0 <;> simp [hp]
  tauto

/-! ## Option validation -/

/-- C1: `validateOptions` returns an error exactly when a webhook port is
configured. It always returns; the error is "webhook not implemented"; it returns
a non-nil error if and only if `Port` is not 0, and `nil` if and only if `Port` is
0; and two option values with the same `Port` get the same result, whatever their
other fields and whatever the process state. -/
theorem validateOptions_error_iff_port (options : Options) (p : Proc) :
    ((validateOptions options p).value =
        some (some (GoError.errorsNew "webhook not implemented")) ↔ options.Port ≠ 0) ∧
    ((∃ err, (validateOptions options p).value = some (some err)) ↔ options.Port ≠ 0) ∧
    ((validateOptions options p).value = some none ↔ options.Port = 0) ∧
    (∀ (options2 : Options) (p2 : Proc), options2.Port = options.Port →
      (validateOptions options2 p2).value = (validateOptions options p).value) := by
  refine ⟨?_, ?_, ?_, ?_⟩
  · rw [validateOptions_value]
    by_cases hp : options.Port = 0 <;> simp [hp]
  · rw [validateOptions_value]
    by_cases hp : options.Port = 0 <;> simp [hp]
  · rw [validateOptions_value]
    by_cases hp : options.Port = 0 <;> simp [hp]
  · intro options2 p2 h
    rw [validateOptions_value, validateOptions_value, h]

/-- C10: with no command-line flags, `optionsFromFlags` returns the defaults
(webhook port 0, no leader election, empty namespaces, health address ":9440",
metrics address ":8080", a sync period of 10 minutes, the leader election ID
"controller-leader-election-capt"), and `validateOptions` accepts them: it
returns `nil`, and writes no log line. -/
theorem default_options_accepted :
    (optionsFromFlags []).Port = 0 ∧
    (optionsFromFlags []).LeaderElection = false ∧
    (optionsFromFlags []).LeaderElectionNamespace = "" ∧
    (optionsFromFlags []).Namespace = "" ∧
    (optionsFromFlags []).HealthProbeBindAddress = ":9440" ∧
    (optionsFromFlags []).MetricsBindAddress = ":8080" ∧
    (optionsFromFlags []).SyncPeriod = 10 * 60 * 1000000000 ∧
    (optionsFromFlags []).LeaderElectionID = "controller-leader-election-capt" ∧
    (∀ p, validateOptions (optionsFromFlags []) p = Res.ok none p) := by
  refine ⟨rfl, rfl, rfl, rfl, rfl, rfl, by decide, rfl, ?_⟩
  intro p
  rw [validateOptions_run]
  simp [optionsFromFlags, defaultOptions]

/-! ## The shim controllers -/

/-- C9: `setupTinkShimControllers` is fail-fast and names the failing step. It
always returns, and returns `nil` exactly when all six registrations succeed; the
registrations are attempted in the order hardware watcher, hardware reconciler,
template watcher, template reconciler, workflow watcher, workflow reconciler; when
one fails, the result is that registration's error wrapped with the message of that
step, and the registrations attempted are those up to the failing one, no more. -/
theorem setupTinkShimControllers_fail_fast (o : Outcomes) (p : Proc) :
    ((setupTinkShimControllers o p).value = some none ↔
      o.AddHardwareWatcher = none ∧ o.SetupHardware = none ∧ o.AddTemplateWatcher = none ∧
      o.SetupTemplate = none ∧ o.AddWorkflowWatcher = none ∧ o.SetupWorkflow = none) ∧
    (o.AddHardwareWatcher = none → o.SetupHardware = none → o.AddTemplateWatcher = none →
      o.SetupTemplate = none → o.AddWorkflowWatcher = none → o.SetupWorkflow = none →
      registrations (shimEvents o p) =
        [(.watcher .RESOURCE_TYPE_HARDWARE, none), (.reconciler .tinkhardware, none),
         (.watcher .RESOURCE_TYPE_TEMPLATE, none), (.reconciler .tinktemplate, none),
         (.watcher .RESOURCE_TYPE_WORKFLOW, none), (.reconciler .tinkworkflow, none)]) ∧
    (∀ e, o.AddHardwareWatcher = some e →
      (setupTinkShimControllers o p).value =
        some (some (GoError.errorf "unable to create tink hardware watcher" e)) ∧
      registrations (shimEvents o p) = [(.watcher .RESOURCE_TYPE_HARDWARE, some e)]) ∧
    (∀ e, o.AddHardwareWatcher = none → o.SetupHardware = some e →
      (setupTinkShimControllers o p).value =
        some (some (GoError.errorf "unable to create tink hardware controller" e)) ∧
      registrations (shimEvents o p) =
        [(.watcher .RESOURCE_TYPE_HARDWARE, none), (.reconciler .tinkhardware, some e)]) ∧
    (∀ e, o.AddHardwareWatcher = none → o.SetupHardware = none →
      o.AddTemplateWatcher = some e →
      (setupTinkShimControllers o p).value =
        some (some (GoError.errorf "unable to create tink template watcher" e)) ∧
      registrations (shimEvents o p) =
        [(.watcher .RESOURCE_TYPE_HARDWARE, none), (.reconciler .tinkhardware, none),
         (.watcher .RESOURCE_TYPE_TEMPLATE, some e)]) ∧
    (∀ e, o.AddHardwareWatcher = none → o.SetupHardware = none →
      o.AddTemplateWatcher = none → o.SetupTemplate = some e →
      (setupTinkShimControllers o p).value =
        some (some (GoError.errorf "unable to create tink template controller" e)) ∧
      registrations (shimEvents o p) =
        [(.watcher .RESOURCE_TYPE_HARDWARE, none), (.reconciler .tinkhardware, none),
         (.watcher .RESOURCE_TYPE_TEMPLATE, none), (.reconciler .tinktemplate, some e)]) ∧
    (∀ e, o.AddHardwareWatcher = none → o.SetupHardware = none →
      o.AddTemplateWatcher = none → o.SetupTemplate = none → o.AddWorkflowWatcher = some e →
      (setupTinkShimControllers o p).value =
        some (some (GoError.errorf "unable to create tink workflow watcher" e)) ∧
      registrations (shimEvents o p) =
        [(.watcher .RESOURCE_TYPE_HARDWARE, none), (.reconciler .tinkhardware, none),
         (.watcher .RESOURCE_TYPE_TEMPLATE, none), (.reconciler .tinktemplate, none),
         (.watcher .RESOURCE_TYPE_WORKFLOW, some e)]) ∧
    (∀ e, o.AddHardwareWatcher = none → o.SetupHardware = none →
      o.AddTemplateWatcher = none → o.SetupTemplate = none → o.AddWorkflowWatcher = none →
      o.SetupWorkflow = some e →
      (setupTinkShimControllers o p).value =
        some (some (GoError.errorf "unable to create tink workflow controller" e)) ∧
      registrations (shimEvents o p) =
        [(.watcher .RESOURCE_TYPE_HARDWARE, none), (.reconciler .tinkhardware, none),
         (.watcher .RESOURCE_TYPE_TEMPLATE, none), (.reconciler .tinktemplate, none),
         (.watcher .RESOURCE_TYPE_WORKFLOW, none), (.reconciler .tinkworkflow, some e)]) := by
  refine ⟨setupTinkShimControllers_value_none_iff o p, ?_, ?_, ?_, ?_, ?_, ?_, ?_⟩
  · intro h1 h2 h3 h4 h5 h6
    simp [shimEvents, setupTinkShimControllers, ↓Run.bind_apply, makeChan, mgrAdd,
      SetupWithManager, Res.value, Res.eventsSince, Res.proc, registrations,
      Event.registration, h1, h2, h3, h4, h5, h6]
  · intro e h1
    simp [shimEvents, setupTinkShimControllers, ↓Run.bind_apply, makeChan, mgrAdd,
      SetupWithManager, Res.value, Res.eventsSince, Res.proc, registrations,
      Event.registration, h1]
  · intro e h1 h2
    simp [shimEvents, setupTinkShimControllers, ↓Run.bind_apply, makeChan, mgrAdd,
      SetupWithManager, Res.value, Res.eventsSince, Res.proc, registrations,
      Event.registration, h1, h2]
  · intro e h1 h2 h3
    simp [shimEvents, setupTinkShimControllers, ↓Run.bind_apply, makeChan, mgrAdd,
      SetupWithManager, Res.value, Res.eventsSince, Res.proc, registrations,
      Event.registration, h1, h2, h3]
  · intro e h1 h2 h3 h4
    simp [shimEvents, setupTinkShimControllers, ↓Run.bind_apply, makeChan, mgrAdd,
      SetupWithManager, Res.value, Res.eventsSince, Res.proc, registrations,
      Event.registration, h1, h2, h3, h4]
  · intro e h1 h2 h3 h4 h5
    simp [shimEvents, setupTinkShimControllers, ↓Run.bind_apply, makeChan, mgrAdd,
      SetupWithManager, Res.value, Res.eventsSince, Res.proc, registrations,
      Event.registration, h1, h2, h3, h4, h5]
  · intro e h1 h2 h3 h4 h5 h6
    simp [shimEvents, setupTinkShimControllers, ↓Run.bind_apply, makeChan, mgrAdd,
      SetupWithManager, Res.value, Res.eventsSince, Res.proc, registrations,
      Event.registration, h1, h2, h3, h4, h5, h6]


/-- C6: the wiring of the event channels in `setupTinkShimControllers`. Three
channels are made, pairwise distinct. Every watcher given to `mgr.Add` has one of
them as its `EventCh`; no two watchers have the same channel or the same resource
type, so no channel is shared between two resource types. The channel passed to a
reconciler's `SetupWithManager` is the `EventCh` of the watcher whose resource type
is the reconciler's, and of no watcher of another resource type. When the first
five registrations succeed, so that all six are attempted, each of the three
channels is the `EventCh` of exactly one watcher and is passed to exactly one
reconciler, the one of that watcher's resource type. -/
theorem event_channel_wiring (o : Outcomes) (p : Proc) :
    (madeChans (shimEvents o p)).length = 3 ∧
    (madeChans (shimEvents o p)).Nodup ∧
    (∀ w ∈ watchersIn (shimEvents o p), w.EventCh ∈ madeChans (shimEvents o p)) ∧
    ((watchersIn (shimEvents o p)).map (fun w => w.EventCh)).Nodup ∧
    ((watchersIn (shimEvents o p)).map (fun w => w.ResourceType)).Nodup ∧
    (∀ w1 ∈ watchersIn (shimEvents o p), ∀ w2 ∈ watchersIn (shimEvents o p),
      w1.EventCh = w2.EventCh → w1.ResourceType = w2.ResourceType) ∧
    (∀ s ∈ setupsIn (shimEvents o p),
      (∃ w ∈ watchersIn (shimEvents o p),
        s.2 = some w.EventCh ∧ s.1.kind.resourceType = some w.ResourceType) ∧
      (∀ w ∈ watchersIn (shimEvents o p),
        s.2 = some w.EventCh → s.1.kind.resourceType = some w.ResourceType)) ∧
    (o.AddHardwareWatcher = none → o.SetupHardware = none → o.AddTemplateWatcher = none →
      o.SetupTemplate = none → o.AddWorkflowWatcher = none →
      (watchersIn (shimEvents o p)).map (fun w => w.EventCh) = madeChans (shimEvents o p) ∧
      (watchersIn (shimEvents o p)).map (fun w => w.ResourceType) =
        [.RESOURCE_TYPE_HARDWARE, .RESOURCE_TYPE_TEMPLATE, .RESOURCE_TYPE_WORKFLOW] ∧
      (setupsIn (shimEvents o p)).map (fun s => s.2) =
        (madeChans (shimEvents o p)).map some ∧
      (setupsIn (shimEvents o p)).map (fun s => s.1.kind) =
        [.tinkhardware, .tinktemplate, .tinkworkflow]) := by
  obtain ⟨a1, a2, a3, a4, a5, a6, a7, a8, a9, a10, a11, a12, a13, a14⟩ := o
  rcases a4 with _ | e
  swap
  · simp [shimEvents, setupTinkShimControllers, ↓Run.bind_apply, makeChan, mgrAdd,
      SetupWithManager, Res.eventsSince, Res.proc, madeChans, watchersIn, setupsIn,
      ReconcilerKind.resourceType]
    omega
  rcases a5 with _ | e
  swap
  · simp [shimEvents, setupTinkShimControllers, ↓Run.bind_apply, makeChan, mgrAdd,
      SetupWithManager, Res.eventsSince, Res.proc, madeChans, watchersIn, setupsIn,
      ReconcilerKind.resourceType]
    omega
  rcases a6 with _ | e
  swap
  · simp [shimEvents, setupTinkShimControllers, ↓Run.bind_apply, makeChan, mgrAdd,
      SetupWithManager, Res.eventsSince, Res.proc, madeChans, watchersIn, setupsIn,
      ReconcilerKind.resourceType]
    omega
  rcases a7 with _ | e
  swap
  · simp [shimEvents, setupTinkShimControllers, ↓Run.bind_apply, makeChan, mgrAdd,
      SetupWithManager, Res.eventsSince, Res.proc, madeChans, watchersIn, setupsIn,
      ReconcilerKind.resourceType]
    omega
  rcases a8 with _ | e
  swap
  · simp [shimEvents, setupTinkShimControllers, ↓Run.bind_apply, makeChan, mgrAdd,
      SetupWithManager, Res.eventsSince, Res.proc, madeChans, watchersIn, setupsIn,
      ReconcilerKind.resourceType]
    omega
  rcases a9 with _ | e
  swap
  · simp [shimEvents, setupTinkShimControllers, ↓Run.bind_apply, makeChan, mgrAdd,
      SetupWithManager, Res.eventsSince, Res.proc, madeChans, watchersIn, setupsIn,
      ReconcilerKind.resourceType]
    omega
  simp [shimEvents, setupTinkShimControllers, ↓Run.bind_apply, makeChan, mgrAdd,
      SetupWithManager, Res.eventsSince, Res.proc, madeChans, watchersIn, setupsIn,
      ReconcilerKind.resourceType]
  omega


/-- C4, as the code has it: the three event channels that
`setupTinkShimControllers` makes are unbuffered. Each has capacity 0, and so has
the `EventCh` of every watcher and the channel given to every reconciler. -/
theorem event_channels_unbuffered (o : Outcomes) (p : Proc) :
    (madeChans (shimEvents o p)).map (fun ch => ch.cap) = [0, 0, 0] ∧
    (∀ w ∈ watchersIn (shimEvents o p), w.EventCh.cap = 0) ∧
    (∀ s ∈ setupsIn (shimEvents o p), ∀ ch, s.2 = some ch → ch.cap = 0) := by
  obtain ⟨a1, a2, a3, a4, a5, a6, a7, a8, a9, a10, a11, a12, a13, a14⟩ := o
  rcases a4 with _ | e
  swap
  · simp [shimEvents, setupTinkShimControllers, ↓Run.bind_apply, makeChan, mgrAdd,
      SetupWithManager, Res.eventsSince, Res.proc, madeChans, watchersIn, setupsIn]
  rcases a5 with _ | e
  swap
  · simp [shimEvents, setupTinkShimControllers, ↓Run.bind_apply, makeChan, mgrAdd,
      SetupWithManager, Res.eventsSince, Res.proc, madeChans, watchersIn, setupsIn]
  rcases a6 with _ | e
  swap
  · simp [shimEvents, setupTinkShimControllers, ↓Run.bind_apply, makeChan, mgrAdd,
      SetupWithManager, Res.eventsSince, Res.proc, madeChans, watchersIn, setupsIn]
  rcases a7 with _ | e
  swap
  · simp [shimEvents, setupTinkShimControllers, ↓Run.bind_apply, makeChan, mgrAdd,
      SetupWithManager, Res.eventsSince, Res.proc, madeChans, watchersIn, setupsIn]
  rcases a8 with _ | e
  swap
  · simp [shimEvents, setupTinkShimControllers, ↓Run.bind_apply, makeChan, mgrAdd,
      SetupWithManager, Res.eventsSince, Res.proc, madeChans, watchersIn, setupsIn]
  rcases a9 with _ | e
  swap
  · simp [shimEvents, setupTinkShimControllers, ↓Run.bind_apply, makeChan, mgrAdd,
      SetupWithManager, Res.eventsSince, Res.proc, madeChans, watchersIn, setupsIn]
  simp [shimEvents, setupTinkShimControllers, ↓Run.bind_apply, makeChan, mgrAdd,
    SetupWithManager, Res.eventsSince, Res.proc, madeChans, watchersIn, setupsIn]

/-- C4, as the claim states it, fails: on the run in which every registration
succeeds, from the initial state, not every channel made has a capacity of at
least 100 (each has capacity 0). -/
theorem event_channel_capacity_not_hundreds :
    ¬ ∀ ch ∈ madeChans (shimEvents allSucceed {}), 100 ≤ ch.cap := by
  decide

/-! ## The start-up sequence -/

/-- C5: on a run in which every startup step succeeds, `mgr.Start` is called, once,
and the manager it is called on has exactly three stream watchers, for Hardware,
Template and Workflow, and exactly five controllers, for the reconcilers of
Hardware, Template, Workflow, TinkerbellCluster and TinkerbellMachine, each once. -/
theorem registrations_at_start (args : List FlagArg) (o : Outcomes)
    (h : startupSucceeds args o) :
    ∃ mgr, Event.call (Call.Start mgr) o.Start ∈ (runMain args o).proc.trace ∧
      (∀ mgr2 err, Event.call (Call.Start mgr2) err ∈ (runMain args o).proc.trace →
        mgr2 = mgr) ∧
      mgr.runnables.map (fun w => w.ResourceType) =
        [.RESOURCE_TYPE_HARDWARE, .RESOURCE_TYPE_TEMPLATE, .RESOURCE_TYPE_WORKFLOW] ∧
      mgr.controllers.map (fun c => c.reconciler.kind) =
        [.tinkhardware, .tinktemplate, .tinkworkflow, .TinkerbellCluster,
         .TinkerbellMachine] ∧
      watchersIn (runMain args o).proc.trace = mgr.runnables ∧
      (setupsIn (runMain args o).proc.trace).map (fun s => s.1) =
        mgr.controllers.map (fun c => c.reconciler) := by
  rw [startupSucceeds_iff] at h
  obtain ⟨a1, a2, a3, a4, a5, a6, a7, a8, a9, a10, a11, a12, a13, a14⟩ := o
  obtain ⟨hp, h1, h2, h3, h4, h5, h6, h7, h8, h9, h10, h11, h12, h13⟩ := h
  simp only at h1 h2 h3 h4 h5 h6 h7 h8 h9 h10 h11 h12 h13
  subst h1 h2 h3 h4 h5 h6 h7 h8 h9 h10 h11 h12 h13
  by_cases hn : (optionsFromFlags args).Namespace = "" <;> rcases a14 with _ | e <;>
    simp [runMain, main, ↓Run.bind_apply, validateOptions_run, hp, hn, setupLogError,
      setupLogInfo, emit, osExit, extCall, setupTinkShimControllers, addHealthChecks,
      makeChan, mgrAdd, SetupWithManager, AddReadyzCheck, AddHealthzCheck, mgrStart,
      Res.proc, watchersIn, setupsIn]

set_option maxHeartbeats 4000000

/-- C2: if any startup step of `main` fails, the process ends with exit status 1,
its last act being `os.Exit(1)`, and the run loop `mgr.Start` is never entered.
No external call follows a call that returned an error; and when it is
`validateOptions` that fails, no external call is made after it (the only call of
the run is `SetLogger`, made before). -/
theorem startup_failure_exits (args : List FlagArg) (o : Outcomes)
    (h : ¬ startupSucceeds args o) :
    (runMain args o).exitStatus = 1 ∧
    (runMain args o).proc.trace.getLast? = some (Event.exit 1) ∧
    ¬ startEntered (runMain args o).proc.trace ∧
    (runMain args o).proc.trace.Pairwise
      (fun a b => a.isFailedCall = true → b.isCall = false) ∧
    ((∃ p, (validateOptions (optionsFromFlags args) p).value ≠ some none) →
      ∀ c err, Event.call c err ∈ (runMain args o).proc.trace → c = Call.SetLogger) := by
  rw [startupSucceeds_iff] at h
  simp only [validateOptions_value, startEntered]
  obtain ⟨a1, a2, a3, a4, a5, a6, a7, a8, a9, a10, a11, a12, a13, a14⟩ := o
  simp only at h
  by_cases hp : (optionsFromFlags args).Port = 0
  swap
  · by_cases hn : (optionsFromFlags args).Namespace = "" <;>
      simp [runMain, main, ↓Run.bind_apply, validateOptions_run, hp, hn, setupLogError,
        setupLogInfo, emit, osExit, extCall, Res.proc, Res.exitStatus, Event.isCall,
        Event.isFailedCall]
  rcases a1 with _ | e
  swap
  · by_cases hn : (optionsFromFlags args).Namespace = "" <;>
      simp [runMain, main, ↓Run.bind_apply, validateOptions_run, hp, hn, setupLogError,
        setupLogInfo, emit, osExit, extCall, Res.proc, Res.exitStatus, Event.isCall,
        Event.isFailedCall]
  rcases a2 with _ | e
  swap
  · by_cases hn : (optionsFromFlags args).Namespace = "" <;>
      simp [runMain, main, ↓Run.bind_apply, validateOptions_run, hp, hn, setupLogError,
        setupLogInfo, emit, osExit, extCall, Res.proc, Res.exitStatus, Event.isCall,
        Event.isFailedCall]
  rcases a3 with _ | e
  swap
  · by_cases hn : (optionsFromFlags args).Namespace = "" <;>
      simp [runMain, main, ↓Run.bind_apply, validateOptions_run, hp, hn, setupLogError,
        setupLogInfo, emit, osExit, extCall, Res.proc, Res.exitStatus, Event.isCall,
        Event.isFailedCall]
  rcases a4 with _ | e
  swap
  · by_cases hn : (optionsFromFlags args).Namespace = "" <;>
      simp [runMain, main, ↓Run.bind_apply, validateOptions_run, hp, hn, setupLogError,
        setupLogInfo, emit, osExit, extCall, setupTinkShimControllers, makeChan, mgrAdd,
        SetupWithManager, Res.proc, Res.exitStatus, Event.isCall, Event.isFailedCall]
  rcases a5 with _ | e
  swap
  · by_cases hn : (optionsFromFlags args).Namespace = "" <;>
      simp [runMain, main, ↓Run.bind_apply, validateOptions_run, hp, hn, setupLogError,
        setupLogInfo, emit, osExit, extCall, setupTinkShimControllers, makeChan, mgrAdd,
        SetupWithManager, Res.proc, Res.exitStatus, Event.isCall, Event.isFailedCall]
  rcases a6 with _ | e
  swap
  · by_cases hn : (optionsFromFlags args).Namespace = "" <;>
      simp [runMain, main, ↓Run.bind_apply, validateOptions_run, hp, hn, setupLogError,
        setupLogInfo, emit, osExit, extCall, setupTinkShimControllers, makeChan, mgrAdd,
        SetupWithManager, Res.proc, Res.exitStatus, Event.isCall, Event.isFailedCall]
  rcases a7 with _ | e
  swap
  · by_cases hn : (optionsFromFlags args).Namespace = "" <;>
      simp [runMain, main, ↓Run.bind_apply, validateOptions_run, hp, hn, setupLogError,
        setupLogInfo, emit, osExit, extCall, setupTinkShimControllers, makeChan, mgrAdd,
        SetupWithManager, Res.proc, Res.exitStatus, Event.isCall, Event.isFailedCall]
  rcases a8 with _ | e
  swap
  · by_cases hn : (optionsFromFlags args).Namespace = "" <;>
      simp [runMain, main, ↓Run.bind_apply, validateOptions_run, hp, hn, setupLogError,
        setupLogInfo, emit, osExit, extCall, setupTinkShimControllers, makeChan, mgrAdd,
        SetupWithManager, Res.proc, Res.exitStatus, Event.isCall, Event.isFailedCall]
  rcases a9 with _ | e
  swap
  · by_cases hn : (optionsFromFlags args).Namespace = "" <;>
      simp [runMain, main, ↓Run.bind_apply, validateOptions_run, hp, hn, setupLogError,
        setupLogInfo, emit, osExit, extCall, setupTinkShimControllers, makeChan, mgrAdd,
        SetupWithManager, Res.proc, Res.exitStatus, Event.isCall, Event.isFailedCall]
  rcases a10 with _ | e
  swap
  · by_cases hn : (optionsFromFlags args).Namespace = "" <;>
      simp [runMain, main, ↓Run.bind_apply, validateOptions_run, hp, hn, setupLogError,
        setupLogInfo, emit, osExit, extCall, setupTinkShimControllers, makeChan, mgrAdd,
        SetupWithManager, Res.proc, Res.exitStatus, Event.isCall, Event.isFailedCall]
  rcases a11 with _ | e
  swap
  · by_cases hn : (optionsFromFlags args).Namespace = "" <;>
      simp [runMain, main, ↓Run.bind_apply, validateOptions_run, hp, hn, setupLogError,
        setupLogInfo, emit, osExit, extCall, setupTinkShimControllers, makeChan, mgrAdd,
        SetupWithManager, Res.proc, Res.exitStatus, Event.isCall, Event.isFailedCall]
  rcases a12 with _ | e
  swap
  · by_cases hn : (optionsFromFlags args).Namespace = "" <;>
      simp [runMain, main, ↓Run.bind_apply, validateOptions_run, hp, hn, setupLogError,
        setupLogInfo, emit, osExit, extCall, setupTinkShimControllers, makeChan, mgrAdd,
        SetupWithManager, addHealthChecks, AddReadyzCheck, AddHealthzCheck, Res.proc,
        Res.exitStatus, Event.isCall, Event.isFailedCall]
  rcases a13 with _ | e
  swap
  · by_cases hn : (optionsFromFlags args).Namespace = "" <;>
      simp [runMain, main, ↓Run.bind_apply, validateOptions_run, hp, hn, setupLogError,
        setupLogInfo, emit, osExit, extCall, setupTinkShimControllers, makeChan, mgrAdd,
        SetupWithManager, addHealthChecks, AddReadyzCheck, AddHealthzCheck, Res.proc,
        Res.exitStatus, Event.isCall, Event.isFailedCall]
  exact absurd ⟨hp, rfl, rfl, rfl, rfl, rfl, rfl, rfl, rfl, rfl, rfl, rfl, rfl, rfl⟩ h

set_option maxHeartbeats 400000

/-- C3, as the code has it: once every startup step has succeeded, `mgr.Start` is
entered, and the exit status is decided by what `mgr.Start` returns. When it returns
an error, `main` logs that error with the message "problem running manager" and
then calls `os.Exit(1)`: these are the last two events of the run, and the exit
status is 1. When it returns `nil`, `main` returns: the exit status is 0, no error
is logged and `os.Exit` is not called. -/
theorem exit_status_after_start (args : List FlagArg) (o : Outcomes)
    (h : startupSucceeds args o) :
    startEntered (runMain args o).proc.trace ∧
    ((runMain args o).exitStatus ≠ 0 ↔ o.Start ≠ none) ∧
    (o.Start = none →
      (runMain args o).exitStatus = 0 ∧ (runMain args o).value = some () ∧
      (∀ code, Event.exit code ∉ (runMain args o).proc.trace) ∧
      (∀ logger err msg kv,
        Event.log (LogEntry.Error logger err msg kv) ∉ (runMain args o).proc.trace)) ∧
    (∀ e, o.Start = some e →
      (runMain args o).exitStatus = 1 ∧
      (runMain args o).proc.trace.getLast? = some (Event.exit 1) ∧
      (runMain args o).proc.trace.dropLast.getLast? =
        some (Event.log (LogEntry.Error setupLog e "problem running manager" [])) ∧
      (∃ mgr, (runMain args o).proc.trace.dropLast.dropLast.getLast? =
        some (Event.call (Call.Start mgr) (some e)))) := by
  rw [startupSucceeds_iff] at h
  obtain ⟨a1, a2, a3, a4, a5, a6, a7, a8, a9, a10, a11, a12, a13, a14⟩ := o
  obtain ⟨hp, h1, h2, h3, h4, h5, h6, h7, h8, h9, h10, h11, h12, h13⟩ := h
  simp only at h1 h2 h3 h4 h5 h6 h7 h8 h9 h10 h11 h12 h13
  subst h1 h2 h3 h4 h5 h6 h7 h8 h9 h10 h11 h12 h13
  by_cases hn : (optionsFromFlags args).Namespace = "" <;> rcases a14 with _ | e <;>
    simp [startEntered, runMain, main, ↓Run.bind_apply, validateOptions_run, hp, hn,
      setupLogError, setupLogInfo, emit, osExit, extCall, setupTinkShimControllers,
      addHealthChecks, makeChan, mgrAdd, SetupWithManager, AddReadyzCheck,
      AddHealthzCheck, mgrStart, Res.proc, Res.exitStatus, Res.value]

/-- C7, as the code has it: with a webhook port that is not 0, `main` ends with
exit status 1 right after `validateOptions`: the manager is neither created nor
started, the only external call of the run is `SetLogger`, and no stream watcher
and no reconciler is registered. -/
theorem webhook_port_exits (args : List FlagArg) (o : Outcomes)
    (h : (optionsFromFlags args).Port ≠ 0) :
    (runMain args o).exitStatus = 1 ∧
    (runMain args o).proc.trace.getLast? = some (Event.exit 1) ∧
    (∀ c err, Event.call c err ∈ (runMain args o).proc.trace → c = Call.SetLogger) ∧
    ¬ startEntered (runMain args o).proc.trace ∧
    (runMain args o).proc.mgr.runnables = [] ∧
    (runMain args o).proc.mgr.controllers = [] := by
  by_cases hn : (optionsFromFlags args).Namespace = "" <;>
    simp [startEntered, runMain, main, ↓Run.bind_apply, validateOptions_run, h, hn,
      setupLogError, setupLogInfo, emit, osExit, extCall, Res.proc, Res.exitStatus]


/-- Every startup step succeeds with no flags and all calls succeeding. -/
theorem startupSucceeds_allSucceed : startupSucceeds [] allSucceed := by
  rw [startupSucceeds_iff]
  exact ⟨rfl, rfl, rfl, rfl, rfl, rfl, rfl, rfl, rfl, rfl, rfl, rfl, rfl, rfl⟩

/-- Every startup step succeeds with no flags and only `mgr.Start` failing. -/
theorem startupSucceeds_startFails : startupSucceeds [] startFails := by
  rw [startupSucceeds_iff]
  exact ⟨rfl, rfl, rfl, rfl, rfl, rfl, rfl, rfl, rfl, rfl, rfl, rfl, rfl, rfl⟩

/-- A startup step fails when `ctrl.NewManager` returns an error. -/
theorem not_startupSucceeds_newManagerFails : ¬ startupSucceeds [] newManagerFails := by
  rw [startupSucceeds_iff]
  intro h
  exact absurd h.2.2.1 (by decide)

/-- C2 at a concrete run: with no flags and `ctrl.NewManager` failing, a startup
step fails and the process ends with exit status 1. -/
theorem startup_failure_exits_witness :
    ¬ startupSucceeds [] newManagerFails ∧ (runMain [] newManagerFails).exitStatus = 1 :=
  ⟨not_startupSucceeds_newManagerFails,
    (startup_failure_exits [] newManagerFails not_startupSucceeds_newManagerFails).1⟩

/-- C5 at a concrete run: with no flags and every call succeeding, `mgr.Start` is
called on a manager with three stream watchers and five controllers. -/
theorem registrations_at_start_witness :
    startupSucceeds [] allSucceed ∧
    ∃ mgr, Event.call (Call.Start mgr) none ∈ (runMain [] allSucceed).proc.trace ∧
      mgr.runnables.length = 3 ∧ mgr.controllers.length = 5 := by
  refine ⟨startupSucceeds_allSucceed, ?_⟩
  obtain ⟨mgr, h1, _, h3, h4, _⟩ :=
    registrations_at_start [] allSucceed startupSucceeds_allSucceed
  exact ⟨mgr, h1, by simpa using congrArg List.length h3,
    by simpa using congrArg List.length h4⟩

/-- C3, as the claim states it, fails: with no flags and every call succeeding
until `mgr.Start`, which returns an error, every startup step succeeds, the run
loop is entered, and the process ends with exit status 1. -/
theorem start_failure_exits_nonzero :
    startupSucceeds [] startFails ∧
    startEntered (runMain [] startFails).proc.trace ∧
    (runMain [] startFails).exitStatus = 1 := by
  refine ⟨startupSucceeds_startFails, ?_, by decide⟩
  simp [startEntered, startFails, allSucceed, runMain, main, ↓Run.bind_apply,
    validateOptions_run, optionsFromFlags, defaultOptions, setupLogError, setupLogInfo,
    emit, osExit, extCall, setupTinkShimControllers, addHealthChecks, makeChan, mgrAdd,
    SetupWithManager, AddReadyzCheck, AddHealthzCheck, mgrStart, Res.proc]

/-- C3 at a concrete run: with no flags and every call succeeding, every startup
step succeeds and `main` returns, the exit status being 0. -/
theorem exit_status_after_start_witness :
    startupSucceeds [] allSucceed ∧ (runMain [] allSucceed).exitStatus = 0 :=
  ⟨startupSucceeds_allSucceed,
    ((exit_status_after_start [] allSucceed startupSucceeds_allSucceed).2.2.1 rfl).1⟩

/-- C7, as the claim states it, fails: with the webhook port 9443 and every call
succeeding, the run loop `mgr.Start` is never entered, and the manager is never
created: the process ends with exit status 1. -/
theorem webhook_port_never_starts :
    (optionsFromFlags [FlagArg.webhook_port 9443]).Port ≠ 0 ∧
    ¬ startEntered (runMain [FlagArg.webhook_port 9443] allSucceed).proc.trace ∧
    (∀ options err, Event.call (Call.NewManager options) err ∉
      (runMain [FlagArg.webhook_port 9443] allSucceed).proc.trace) ∧
    (runMain [FlagArg.webhook_port 9443] allSucceed).exitStatus = 1 := by
  refine ⟨by decide, ?_, ?_, by decide⟩ <;>
    simp [startEntered, allSucceed, runMain, main, ↓Run.bind_apply, validateOptions_run,
      optionsFromFlags, defaultOptions, setFlag, setupLogError, setupLogInfo, emit,
      osExit, extCall, Res.proc]

/-- C7 at a concrete run: with the webhook port 9443 the process ends with exit
status 1. -/
theorem webhook_port_exits_witness :
    (optionsFromFlags [FlagArg.webhook_port 9443]).Port ≠ 0 ∧
    (runMain [FlagArg.webhook_port 9443] allSucceed).exitStatus = 1 :=
  ⟨by decide, (webhook_port_exits [FlagArg.webhook_port 9443] allSucceed (by decide)).1⟩

end CAPT
